import Mathlib

/-!
Shallow embedding of the statements front-end of the teams-file-manager
repository (src/static/statements/js). JavaScript objects become Lean
structures; a field that may be `undefined` becomes an `Option`; the DOM
writes performed by a rendering function become the record of values it
writes. Where several historical variants of a file are concatenated in
the source dump, the definitions below follow the production variant
(the account-type-aware `setParseStatus` of ui.js, the `startUpload` of
main.js, and `UploadModal` of upload-modal.js).
-/

/-! ## JavaScript value helpers -/

/-- Truthiness of a possibly-undefined JS number (`undefined` and `0` are falsy). -/
def jsTruthyInt : Option Int → Bool
  | none => false
  | some n => n != 0

/-- The JS comparison `x > 0` on a possibly-undefined number: `undefined > 0` is false. -/
def jsGtZero : Option Int → Bool
  | none => false
  | some n => 0 < n

/-- JS addition on possibly-undefined numbers: adding `undefined` yields `NaN`,
modelled as `none` (which every later `> 0` comparison rejects, as in JS). -/
def jsAddOpt : Option Int → Option Int → Option Int
  | some a, some b => some (a + b)
  | _, _ => none

/-- The JS idiom `x || 0` for a possibly-undefined number field. -/
def jsOrZero (o : Option Int) : Int :=
  match o with
  | some n => n
  | none => 0

/-- The JS idiom `s || d` for a possibly-undefined string field (`""` is falsy). -/
def jsOrStr (o : Option String) (d : String) : String :=
  match o with
  | some s => if s = "" then d else s
  | none => d

/-! ## Data model: month records (§3 of the spec, ui.js) -/

/-- One file sub-record of a month (`monthData.xlsx` / `monthData.pdf`). -/
structure FileRecord where
  transaction_count : Option Int := none
  parse_status : Option String := none
deriving Repr, DecidableEq

/-- A month record as consumed by `StatementsUI.updateMonthCell` (ui.js). -/
structure MonthRecord where
  xlsx : Option FileRecord := none
  pdf : Option FileRecord := none
  transaction_count : Option Int := none
  status : Option String := none
  file_count : Option Int := none
deriving Repr, DecidableEq

/-! ## Transaction-count rendering (ui.js `setParseStatus`, production variant) -/

/-- Models `Number.prototype.toFixed(1)` on the exact rational `num / den` for
positive integers, rounding half away from zero; used only inside `formatCount`. -/
def toFixed1 (num den : Int) : String :=
  let scaled := (num * 10 + den / 2) / den
  toString (scaled / 10) ++ "." ++ toString (scaled % 10)

/-- ui.js `StatementsUI.formatCount`. -/
def formatCount (count : Int) : String :=
  if count = 0 then "-"
  else if count < 1000 then toString count
  else if count < 1000000 then toFixed1 count 1000 ++ "k"
  else toFixed1 count 1000000 ++ "M"

/-- The DOM writes performed by ui.js `StatementsUI.setParseStatus`. -/
structure ParseStatusRender where
  isParsed : Bool
  totalTransactionCount : Option Int
  dbIconClass : String
  countText : String
deriving Repr, DecidableEq

/-- ui.js `StatementsUI.setParseStatus` (production variant, with the STP
double-counting fix): for STP accounts only the XLSX transaction count is used,
for other account types the XLSX and PDF counts are summed, and a root-level
`transaction_count` is a fallback when neither sub-record marked the month parsed. -/
def setParseStatus (accountType : String) (monthData : MonthRecord) : ParseStatusRender :=
  let xlsxHit : Bool :=
    match monthData.xlsx with
    | some x => jsGtZero x.transaction_count || x.parse_status == some "parsed"
    | none => false
  let pdfParsed : Bool :=
    match monthData.pdf with
    | some p => p.parse_status == some "parsed"
    | none => false
  let pdfHit : Bool :=
    match monthData.pdf with
    | some p => jsGtZero p.transaction_count || p.parse_status == some "parsed"
    | none => false
  let xlsxCount : Option Int :=
    match monthData.xlsx with
    | some x => x.transaction_count
    | none => none
  let pdfCount : Option Int :=
    match monthData.pdf with
    | some p => p.transaction_count
    | none => none
  let isParsed0 : Bool :=
    if accountType = "stp" then xlsxHit || pdfParsed
    else xlsxHit || pdfHit
  let total0 : Option Int :=
    if accountType = "stp" then
      (if xlsxHit then xlsxCount else some 0)
    else
      let t1 := if xlsxHit then jsAddOpt (some 0) xlsxCount else some 0
      if pdfHit then jsAddOpt t1 pdfCount else t1
  let useRoot : Bool :=
    !isParsed0 && jsTruthyInt monthData.transaction_count
      && jsGtZero monthData.transaction_count
  let isParsed : Bool := isParsed0 || useRoot
  let total : Option Int := if useRoot then monthData.transaction_count else total0
  { isParsed := isParsed
    totalTransactionCount := total
    dbIconClass := if isParsed then "database-icon db-parsed" else "database-icon db-loaded"
    countText :=
      match total with
      | some n => if isParsed && decide (0 < n) then formatCount n else "-"
      | none => "-" }

/-! ## Calendar cell rendering (ui.js `updateMonthCell` and helpers) -/

/-- ui.js `StatementsUI.setFileIcon`: the icon HTML written into the cell. -/
def setFileIcon (monthData : MonthRecord) : String :=
  let hasExcel := monthData.xlsx.isSome
  let hasPdf := monthData.pdf.isSome
  if hasExcel && hasPdf then
    "<i class=\"fas fa-file-excel text-success me-1\"></i><i class=\"fas fa-file-pdf text-danger\"></i>"
  else if hasExcel then
    "<i class=\"fas fa-file-excel text-success\"></i>"
  else if hasPdf then
    "<i class=\"fas fa-file-pdf text-danger\"></i>"
  else
    ""

/-- The DOM state of one calendar month cell after a render. -/
structure CellRender where
  iconHtml : String
  dbIconClass : String
  countText : String
  cellClass : String
deriving Repr, DecidableEq

/-- ui.js `StatementsUI.setEmptyCell`. -/
def setEmptyCell : CellRender :=
  { iconHtml := ""
    dbIconClass := "database-icon db-not-loaded"
    countText := "-"
    cellClass := "month-cell no-file" }

/-- ui.js `StatementsUI.setFileCell`. -/
def setFileCell (accountType : String) (monthData : MonthRecord) : CellRender :=
  let ps := setParseStatus accountType monthData
  { iconHtml := setFileIcon monthData
    dbIconClass := ps.dbIconClass
    countText := ps.countText
    cellClass := "month-cell" }

/-- ui.js `StatementsUI.updateMonthCell`: missing data, `status === 'missing'`
or `file_count === 0` gives the empty cell, otherwise the file cell. -/
def updateMonthCell (accountType : String) (monthData : Option MonthRecord) : CellRender :=
  match monthData with
  | none => setEmptyCell
  | some md =>
    if md.status == some "missing" || md.file_count == some 0 then setEmptyCell
    else setFileCell accountType md

/-! ## Month-cell click handling (main.js `downloadMonthFile`) -/

/-- Bool test that `pat` starts the list `s` (character-wise). -/
def leadsWith : List Char → List Char → Bool
  | [], _ => true
  | _ :: _, [] => false
  | a :: as, b :: bs => a == b && leadsWith as bs

/-- Bool test that `pat` occurs somewhere inside `s` (JS `String.prototype.includes`). -/
def containsSub (pat : List Char) : List Char → Bool
  | [] => leadsWith pat []
  | c :: rest => leadsWith pat (c :: rest) || containsSub pat rest

/-- The observable outcome of clicking a month cell (main.js `downloadMonthFile`). -/
inductive ClickAction where
  | showSelectionModal
  | downloadXlsx
  | downloadPdf
  | alertInfo (msg : String)
deriving Repr, DecidableEq

/-- main.js `downloadMonthFile`: reads the rendered cell back from the DOM
(`no-file` class, icon HTML) and decides between the STP selection modal,
a direct download, or an informational alert. -/
def downloadMonthFile (accountType : String) (cell : CellRender) : ClickAction :=
  if containsSub "no-file".data cell.cellClass.data then
    .alertInfo "No files available for this month"
  else
    let hasExcel := containsSub "fa-file-excel".data cell.iconHtml.data
    let hasPdf := containsSub "fa-file-pdf".data cell.iconHtml.data
    if accountType = "stp" && hasExcel && hasPdf then .showSelectionModal
    else if hasExcel && !hasPdf then .downloadXlsx
    else if hasPdf && !hasExcel then .downloadPdf
    else if hasExcel && hasPdf then .downloadPdf
    else .alertInfo "No files available for download"

/-! ## Filename classification (main.js `validateUploadFile`, ui.js `validateFile`) -/

/-- Bool test that `suffix` ends the list `s` (JS `String.prototype.endsWith`). -/
def endsWithL (suffix s : List Char) : Bool :=
  s.reverse.take suffix.length == suffix.reverse

/-- Consume exactly `n` decimal digits from the front of `s`
(the regex atom `\d{n}`), returning them together with the rest. -/
def takeDigits : Nat → List Char → Option (List Char × List Char)
  | 0, s => some ([], s)
  | _ + 1, [] => none
  | n + 1, c :: cs =>
    if c.isDigit then (takeDigits n cs).map (fun p => (c :: p.1, p.2)) else none

/-- The STP filename regex of main.js `validateUploadFile`,
`^ec-(\d{18})-(\d{4})(\d{2})\.(pdf|xlsx|xls)$`, returning the three
captured groups (account, year, month) on a match. -/
def stpMatch (s : List Char) : Option (String × String × String) :=
  match s with
  | 'e' :: 'c' :: '-' :: r1 =>
    match takeDigits 18 r1 with
    | some (acct, '-' :: r2) =>
      match takeDigits 4 r2 with
      | some (yr, r3) =>
        match takeDigits 2 r3 with
        | some (mo, '.' :: ext) =>
          if ext = "pdf".data || ext = "xlsx".data || ext = "xls".data then
            some (String.mk acct, String.mk yr, String.mk mo)
          else none
        | _ => none
      | none => none
    | _ => none
  | _ => none

/-- The characters matched by the regex class `\s` that occur in these filenames. -/
def isSpaceJS (c : Char) : Bool :=
  c == ' ' || c == '\t' || c == '\n' || c == '\r'

/-- The characters matched by the regex atom `.` (anything but a line terminator). -/
def dotMatches (c : Char) : Bool :=
  c != '\n' && c != '\r'

/-- Backtracking loop for `bbvaMatch`: try whitespace-run lengths from `n`
downward, as the engine backtracks the greedy `\s+` when the lazy `(.+?)`
would otherwise be empty or unmatchable. -/
def bbvaTry (g1 rest : List Char) : Nat → Option (String × String)
  | 0 => none
  | n + 1 =>
    let tail := rest.drop (n + 1)
    if endsWithL ".pdf".data tail then
      let mid := tail.take (tail.length - 4)
      if decide (0 < mid.length) && mid.all dotMatches then
        some (String.mk g1, String.mk mid)
      else bbvaTry g1 rest n
    else bbvaTry g1 rest n

/-- The BBVA filename regex of main.js `validateUploadFile`,
`^(\d{4})\s+(.+?)\.(pdf)$`, returning the first two captured groups. -/
def bbvaMatch (s : List Char) : Option (String × String) :=
  match takeDigits 4 s with
  | some (g1, rest) =>
    let k := (rest.takeWhile isSpaceJS).length
    if k = 0 then none else bbvaTry g1 rest k
  | none => none

/-- The client-side view of a selected `File`: its name and byte size. -/
structure FileMeta where
  name : String
  size : Int
deriving Repr, DecidableEq

/-- The object returned by main.js `validateUploadFile` / ui.js `validateFile`. -/
structure ValidationResult where
  valid : Bool
  info : Option String := none
  error : Option String := none
deriving Repr, DecidableEq

/-- JS `String.prototype.toLowerCase` (ASCII fragment, which covers the
patterns and extensions compared against). -/
def strToLower (s : String) : String :=
  String.mk (s.data.map Char.toLower)

/-- main.js `validateUploadFile` (identical to ui.js `StatementsUI.validateFile`):
extension check, 50MB size limit, then STP pattern, BBVA pattern, generic
PDF fallback, in that order. -/
def validateUploadFile (f : FileMeta) : ValidationResult :=
  let fileName := (strToLower f.name).data
  let hasValidExtension :=
    endsWithL ".pdf".data fileName || endsWithL ".xlsx".data fileName
      || endsWithL ".xls".data fileName
  if !hasValidExtension then
    { valid := false, error := some "Invalid file type. Use PDF, XLSX, or XLS files." }
  else if f.size > 50 * 1024 * 1024 then
    { valid := false, error := some "File too large. Maximum size is 50MB." }
  else
    match stpMatch fileName with
    | some (acct, yr, mo) =>
      { valid := true, info := some ("STP file: " ++ acct ++ " - " ++ yr ++ "/" ++ mo) }
    | none =>
      match bbvaMatch fileName with
      | some (g1, g2) =>
        { valid := true, info := some ("BBVA file: " ++ g1 ++ " - " ++ g2) }
      | none =>
        if endsWithL ".pdf".data fileName then
          { valid := true, info := some "PDF file - will auto-detect account" }
        else
          { valid := false, error := some "Filename doesn\x27t match expected patterns" }

/-! ## Upload orchestration (main.js `displaySelectedFiles` / `startUpload`,
upload-modal.js `UploadModal`) -/

/-- The `validFiles` counter of main.js `displaySelectedFiles`. -/
def countValidFiles (files : List FileMeta) : Nat :=
  (files.filter (fun f => (validateUploadFile f).valid)).length

/-- The upload-button state set at the end of main.js `displaySelectedFiles`:
`uploadBtn.disabled = validFiles === 0`. -/
def displaySelectedFilesUploadDisabled (files : List FileMeta) : Bool :=
  countValidFiles files == 0

/-- main.js `startUpload`: the list of files appended to the multipart
`FormData` POSTed to `/api/statements/upload`, or `none` when no request is
made (the empty-selection early return). Every selected file is appended,
with no validity filtering. -/
def startUpload (filesToUpload : List FileMeta) : Option (List FileMeta) :=
  if filesToUpload.isEmpty then none else some filesToUpload

/-- Validation state of one entry of `UploadModal.currentFiles`
(upload-modal.js); validation is asynchronous, so an entry can still be
`validating`. -/
inductive ValidationStatus where
  | validating
  | valid
  | invalid
  | error
deriving Repr, DecidableEq

/-- One entry of `UploadModal.currentFiles` (upload-modal.js). -/
structure ModalFileData where
  name : String
  validationStatus : ValidationStatus
deriving Repr, DecidableEq

/-- upload-modal.js `UploadModal.updateUploadButton`: the button is disabled
when there is no valid file or some file is still validating. -/
def UploadModal.updateUploadButtonDisabled (files : List ModalFileData) : Bool :=
  let hasValidFiles := files.any (fun fd => fd.validationStatus == .valid)
  let isValidating := files.any (fun fd => fd.validationStatus == .validating)
  !hasValidFiles || isValidating

/-- upload-modal.js `UploadModal.startUpload`: only the entries whose
validation status is `valid` are uploaded (sequentially). -/
def UploadModal.startUploadFiles (files : List ModalFileData) : List ModalFileData :=
  files.filter (fun fd => fd.validationStatus == .valid)

/-! ## Parse session completion (main.js `handleParseCompletion` / `showParseResults`) -/

/-- The progress record polled from `/api/statements/parse-progress/{sessionId}`. -/
structure ParseProgress where
  status : String
  files_processed : Option Int := none
  files_skipped : Option Int := none
  transactions_added : Option Int := none
  total_files : Option Int := none
  details : Option String := none
  error : Option String := none
  errors : Option (List String) := none
deriving Repr, DecidableEq

/-- The result object passed to `showParseResults` (main.js). -/
structure ParseResultData where
  success : Bool
  files_processed : Option Int := none
  files_skipped : Option Int := none
  transactions_added : Option Int := none
  total_files : Option Int := none
  message : Option String := none
  error : Option String := none
  errors : List String := []
deriving Repr, DecidableEq

/-- main.js `handleParseCompletion`: on terminal status builds the result
object handed to `showParseResults`; a `completed` status always yields
`success := true`. Non-terminal statuses build nothing (the function is only
invoked from the poller at terminal status). -/
def handleParseCompletion (progress : ParseProgress) : Option ParseResultData :=
  if progress.status = "completed" then
    some { success := true
           files_processed := some (jsOrZero progress.files_processed)
           files_skipped := some (jsOrZero progress.files_skipped)
           transactions_added := some (jsOrZero progress.transactions_added)
           total_files := some (jsOrZero progress.total_files)
           message := some (jsOrStr progress.details "Parse completed successfully")
           errors := progress.errors.getD [] }
  else if progress.status = "error" then
    some { success := false
           error := some (jsOrStr progress.error "Parse operation failed")
           files_processed := some (jsOrZero progress.files_processed)
           transactions_added := some (jsOrZero progress.transactions_added) }
  else none

/-- The alert rendered by main.js `showParseResults`. -/
structure ParseResultsRender where
  isSuccess : Bool
  isAllCurrent : Bool
  messageText : String
  alertClass : String
deriving Repr, DecidableEq

/-- main.js `showParseResults` (FIXED VERSION): `processed = 0` with
`skipped > 0` on a successful result is the distinct all-files-already-current
success case. -/
def showParseResults (result : ParseResultData) : ParseResultsRender :=
  let isSuccess := result.success
  let filesProcessed := jsOrZero result.files_processed
  let filesSkipped := jsOrZero result.files_skipped
  let transactionsAdded := jsOrZero result.transactions_added
  let isAllCurrent := isSuccess && decide (filesProcessed = 0) && decide (0 < filesSkipped)
  let messageText :=
    if isAllCurrent then
      "All " ++ toString filesSkipped ++ " files are already up to date. No parsing needed."
    else if isSuccess && decide (0 < filesProcessed) then
      toString filesProcessed ++ " files processed successfully. "
        ++ toString transactionsAdded ++ " transactions added to database."
        ++ (if decide (0 < filesSkipped) then
              " " ++ toString filesSkipped ++ " files were already current."
            else "")
    else if !isSuccess then
      "Parse failed. " ++ toString filesProcessed ++ " files processed. "
        ++ toString transactionsAdded ++ " transactions added."
    else
      toString filesProcessed ++ " files processed successfully. "
        ++ toString transactionsAdded ++ " transactions added to database."
  { isSuccess := isSuccess
    isAllCurrent := isAllCurrent
    messageText := messageText
    alertClass := if isSuccess then "alert-success" else "alert-danger" }

/-! ## Parse progress polling (main.js `startParseProgressPolling`) -/

/-- Outcome of one `getParseProgress` poll: a progress record, or a rejected
request (HTTP failure or an unsuccessful payload). -/
inductive PollOutcome where
  | ok (progress : ParseProgress)
  | fail
deriving Repr

/-- One tick of the `setInterval` callback of main.js
`startParseProgressPolling`: given whether the interval is still installed and
the outcome of the poll, whether it is still installed afterwards. The
interval is cleared exactly on a terminal status (`completed` / `error`) or a
failed request. -/
def pollIntervalActive (active : Bool) (r : PollOutcome) : Bool :=
  if active then
    match r with
    | .ok p => !(p.status == "completed" || p.status == "error")
    | .fail => false
  else false

/-- The interval state after a sequence of poll outcomes. -/
def pollRun (outcomes : List PollOutcome) : Bool :=
  outcomes.foldl pollIntervalActive true

/-! ## Account tables (config.js `StatementsApp`, main.js `mapAccountNameToId`) -/

/-- config.js `StatementsApp.accountIds`: the static 9-element account list. -/
def accountIds : List String :=
  ["stp_sa", "stp_ip_pi", "stp_ip_pd",
   "bbva_mx_mxn", "bbva_mx_usd", "bbva_sa_mxn", "bbva_sa_usd",
   "bbva_ip_corp", "bbva_ip_clientes"]

/-- config.js `StatementsApp.formatAccountName`: static display-name table with
an uppercase-and-replace fallback. -/
def formatAccountName (accountId : String) : String :=
  let nameMap : List (String × String) :=
    [("stp_sa", "STP SA"),
     ("stp_ip_pi", "STP IP - PI"),
     ("stp_ip_pd", "STP IP - PD"),
     ("bbva_mx_mxn", "BBVA MX MXN"),
     ("bbva_mx_usd", "BBVA MX USD"),
     ("bbva_sa_mxn", "BBVA SA MXN"),
     ("bbva_sa_usd", "BBVA SA USD"),
     ("bbva_ip_corp", "BBVA IP Corp"),
     ("bbva_ip_clientes", "BBVA IP Clientes")]
  match nameMap.lookup accountId with
  | some n => n
  | none => String.mk (accountId.data.map (fun c => if c = '_' then ' ' else c.toUpper))

/-- main.js `mapAccountNameToId`: static reverse lookup from display name to
account id, `null` (`none`) when unknown. -/
def mapAccountNameToId (accountName : String) : Option String :=
  let accountMappings : List (String × String) :=
    [("STP SA", "stp_sa"),
     ("STP IP - PD", "stp_ip_pd"),
     ("STP IP - PI", "stp_ip_pi"),
     ("BBVA MX MXN", "bbva_mx_mxn"),
     ("BBVA MX USD", "bbva_mx_usd"),
     ("BBVA SA MXN", "bbva_sa_mxn"),
     ("BBVA SA USD", "bbva_sa_usd"),
     ("BBVA IP Corp", "bbva_ip_corp"),
     ("BBVA IP Clientes", "bbva_ip_clientes")]
  accountMappings.lookup accountName

/-! ## Supporting lemmas -/

/-- Exactly `n = d.length` digits at the front of `d ++ r` are consumed, and the
split point is the `d`/`r` boundary. -/
theorem takeDigits_exact (d r : List Char) (hall : ∀ c ∈ d, c.isDigit = true) :
    takeDigits d.length (d ++ r) = some (d, r) := by
  induction d with
  | nil => simp [takeDigits]
  | cons c cs ih =>
    have hc : c.isDigit = true := hall c (by simp)
    have ih' := ih (fun x hx => hall x (by simp [hx]))
    simp [takeDigits, hc, ih']

/-- A list ends with any suffix appended to it. -/
theorem endsWithL_append (suffix l : List Char) : endsWithL suffix (l ++ suffix) = true := by
  unfold endsWithL
  rw [List.reverse_append]
  rw [show suffix.length = suffix.reverse.length by simp]
  rw [List.take_left]
  simp

/-! ## Claims -/

/-- C10: for every account id in the static 9-element list
`StatementsApp.accountIds`, `mapAccountNameToId (formatAccountName id) = id`:
the display-name lookup used to refresh calendars after upload inverts the
configured display-name formatting on every known account. -/
theorem c10_account_name_roundtrip :
    ∀ a ∈ accountIds, mapAccountNameToId (formatAccountName a) = some a := by
  intro a ha
  fin_cases ha <;> rfl

/-- C10 witness: the round trip at the concrete account id `stp_sa`. -/
theorem c10_account_name_roundtrip_witness :
    "stp_sa" ∈ accountIds
      ∧ mapAccountNameToId (formatAccountName "stp_sa") = some "stp_sa" :=
  ⟨by decide, c10_account_name_roundtrip "stp_sa" (by decide)⟩

/-- C6: every filename whose (lower-cased) extension is none of `.pdf`,
`.xlsx`, `.xls` is classified invalid with the unsupported-file-type error. -/
theorem c6_unsupported_extension_invalid (f : FileMeta)
    (h1 : endsWithL ".pdf".data (strToLower f.name).data = false)
    (h2 : endsWithL ".xlsx".data (strToLower f.name).data = false)
    (h3 : endsWithL ".xls".data (strToLower f.name).data = false) :
    validateUploadFile f =
      { valid := false, error := some "Invalid file type. Use PDF, XLSX, or XLS files." } := by
  simp [validateUploadFile, h1, h2, h3]

/-- C6 witness: `random.docx` is classified invalid as an unsupported file type. -/
theorem c6_unsupported_extension_invalid_witness :
    endsWithL ".pdf".data (strToLower "random.docx").data = false
      ∧ endsWithL ".xlsx".data (strToLower "random.docx").data = false
      ∧ endsWithL ".xls".data (strToLower "random.docx").data = false
      ∧ validateUploadFile ⟨"random.docx", 1024⟩ =
          { valid := false, error := some "Invalid file type. Use PDF, XLSX, or XLS files." } :=
  ⟨by decide, by decide, by decide,
   c6_unsupported_extension_invalid ⟨"random.docx", 1024⟩ (by decide) (by decide) (by decide)⟩

/-- C1: for an STP month record whose xlsx sub-record carries a positive
transaction count, `setParseStatus` renders exactly that count — whether or not
a pdf sub-record is present — and in particular never the xlsx + pdf sum. -/
theorem c1_stp_count_not_summed (md : MonthRecord) (x : FileRecord) (a : Int)
    (hx : md.xlsx = some x) (ha : x.transaction_count = some a) (hpos : 0 < a) :
    (setParseStatus "stp" md).totalTransactionCount = some a
      ∧ (setParseStatus "stp" md).countText = formatCount a
      ∧ ∀ p b, md.pdf = some p → p.transaction_count = some b → b ≠ 0 →
          (setParseStatus "stp" md).totalTransactionCount ≠ some (a + b) := by
  have hgt : jsGtZero (some a) = true := by simp [jsGtZero, hpos]
  have htot : (setParseStatus "stp" md).totalTransactionCount = some a := by
    simp [setParseStatus, hx, ha, hgt]
  refine ⟨htot, ?_, ?_⟩
  · simp [setParseStatus, hx, ha, hgt, hpos]
  · intro p b _ _ hb
    rw [htot]
    simp
    omega

/-- C1 witness: an STP month whose xlsx and pdf both carry count 25 renders 25,
not 50. -/
theorem c1_stp_count_not_summed_witness :
    (0 : Int) < 25
      ∧ (setParseStatus "stp"
          { xlsx := some { transaction_count := some 25, parse_status := some "parsed" },
            pdf := some { transaction_count := some 25, parse_status := some "parsed" } }
          ).totalTransactionCount = some 25
      ∧ (setParseStatus "stp"
          { xlsx := some { transaction_count := some 25, parse_status := some "parsed" },
            pdf := some { transaction_count := some 25, parse_status := some "parsed" } }
          ).totalTransactionCount ≠ some (25 + 25) :=
  ⟨by decide,
   (c1_stp_count_not_summed _ _ 25 rfl rfl (by decide)).1,
   (c1_stp_count_not_summed _ _ 25 rfl rfl (by decide)).2.2
     _ 25 rfl rfl (by decide)⟩

/-- C4: every filename of the shape `ec-<18 digits>-<4 digits><2 digits>.<ext>`
(lower-cased) with `ext` one of `pdf`, `xlsx`, `xls`, at size at most 50MB, is
classified valid and its classification string carries the extracted account,
year and month. -/
theorem c4_stp_pattern_valid (f : FileMeta) (acctD yrD moD ext : List Char)
    (hname : (strToLower f.name).data
      = 'e' :: 'c' :: '-' :: (acctD ++ ('-' :: (yrD ++ (moD ++ ('.' :: ext))))))
    (hacc : acctD.length = 18) (haccD : ∀ c ∈ acctD, c.isDigit = true)
    (hyr : yrD.length = 4) (hyrD : ∀ c ∈ yrD, c.isDigit = true)
    (hmo : moD.length = 2) (hmoD : ∀ c ∈ moD, c.isDigit = true)
    (hext : ext = "pdf".data ∨ ext = "xlsx".data ∨ ext = "xls".data)
    (hsize : f.size ≤ 50 * 1024 * 1024) :
    validateUploadFile f =
      { valid := true,
        info := some ("STP file: " ++ String.mk acctD ++ " - " ++ String.mk yrD
          ++ "/" ++ String.mk moD) } := by
  have h18 : takeDigits 18 (acctD ++ ('-' :: (yrD ++ (moD ++ ('.' :: ext)))))
      = some (acctD, '-' :: (yrD ++ (moD ++ ('.' :: ext)))) := by
    have h := takeDigits_exact acctD ('-' :: (yrD ++ (moD ++ ('.' :: ext)))) haccD
    rwa [hacc] at h
  have h4 : takeDigits 4 (yrD ++ (moD ++ ('.' :: ext)))
      = some (yrD, moD ++ ('.' :: ext)) := by
    have h := takeDigits_exact yrD (moD ++ ('.' :: ext)) hyrD
    rwa [hyr] at h
  have h2 : takeDigits 2 (moD ++ ('.' :: ext)) = some (moD, '.' :: ext) := by
    have h := takeDigits_exact moD ('.' :: ext) hmoD
    rwa [hmo] at h
  have hsplit : (strToLower f.name).data
      = ('e' :: 'c' :: '-' :: (acctD ++ '-' :: (yrD ++ moD))) ++ ('.' :: ext) := by
    simp [hname, List.append_assoc]
  have hns : ¬ ((52428800 : Int) < f.size) := not_lt.mpr hsize
  have hstp : stpMatch ((strToLower f.name).data)
      = some (String.mk acctD, String.mk yrD, String.mk moD) := by
    rw [hname]
    rcases hext with h | h | h <;> subst h <;> simp [stpMatch, h18, h4, h2]
  have h1 : endsWithL ('.' :: ext) ((strToLower f.name).data) = true := by
    rw [hsplit]; exact endsWithL_append _ _
  have hor : (endsWithL ".pdf".data ((strToLower f.name).data)
      || endsWithL ".xlsx".data ((strToLower f.name).data)
      || endsWithL ".xls".data ((strToLower f.name).data)) = true := by
    rcases hext with h | h | h <;> subst h
    · have h2 : endsWithL ".pdf".data ((strToLower f.name).data) = true := h1
      simp [h2]
    · have h2 : endsWithL ".xlsx".data ((strToLower f.name).data) = true := h1
      simp [h2]
    · have h2 : endsWithL ".xls".data ((strToLower f.name).data) = true := h1
      simp [h2]
  simp [validateUploadFile, hor, hns, hstp]

/-- C4 witness: `ec-123456789012345678-202501.xlsx` is classified as a valid
STP file for account 123456789012345678, year 2025, month 01. -/
theorem c4_stp_pattern_valid_witness :
    validateUploadFile ⟨"ec-123456789012345678-202501.xlsx", 1024⟩
      = { valid := true, info := some "STP file: 123456789012345678 - 2025/01" } := by
  have h := c4_stp_pattern_valid ⟨"ec-123456789012345678-202501.xlsx", 1024⟩
    "123456789012345678".data "2025".data "01".data "xlsx".data
    (by decide) (by decide) (by decide) (by decide) (by decide) (by decide) (by decide)
    (Or.inr (Or.inl rfl)) (by decide)
  rw [h]
  decide

/-- C5 counterexample: `ec-123456789012345678-202501.pdf` is a `.pdf` filename
that does not match the BBVA pattern, yet it is not classified as
auto-detect — it is classified as an STP file — refuting the claim that every
non-BBVA `.pdf` is accepted as auto-detect. -/
theorem c5_pdf_autodetect_counterexample :
    endsWithL ".pdf".data (strToLower "ec-123456789012345678-202501.pdf").data = true
      ∧ bbvaMatch (strToLower "ec-123456789012345678-202501.pdf").data = none
      ∧ (validateUploadFile ⟨"ec-123456789012345678-202501.pdf", 1024⟩).valid = true
      ∧ (validateUploadFile ⟨"ec-123456789012345678-202501.pdf", 1024⟩).info
          = some "STP file: 123456789012345678 - 2025/01"
      ∧ (validateUploadFile ⟨"ec-123456789012345678-202501.pdf", 1024⟩).info
          ≠ some "PDF file - will auto-detect account" := by
  decide

/-- C5 (amended): every filename ending in `.pdf` (lower-cased) of size at most
50MB is accepted as valid; one matching the BBVA pattern is classified BBVA,
and one matching neither the STP nor the BBVA pattern is accepted as
auto-detect. -/
theorem c5_pdf_accepted (f : FileMeta)
    (hpdf : endsWithL ".pdf".data (strToLower f.name).data = true)
    (hsize : f.size ≤ 50 * 1024 * 1024) :
    (validateUploadFile f).valid = true
      ∧ (∀ g1 g2, bbvaMatch (strToLower f.name).data = some (g1, g2) →
          stpMatch (strToLower f.name).data = none →
          (validateUploadFile f).info = some ("BBVA file: " ++ g1 ++ " - " ++ g2))
      ∧ (stpMatch (strToLower f.name).data = none →
          bbvaMatch (strToLower f.name).data = none →
          (validateUploadFile f).info = some "PDF file - will auto-detect account") := by
  have hns : ¬ ((52428800 : Int) < f.size) := not_lt.mpr hsize
  refine ⟨?_, ?_, ?_⟩
  · rcases hstp : stpMatch ((strToLower f.name).data) with _ | ⟨acct, yr, mo⟩
    · rcases hbb : bbvaMatch ((strToLower f.name).data) with _ | ⟨g1, g2⟩
      · simp [validateUploadFile, hpdf, hns, hstp, hbb]
      · simp [validateUploadFile, hpdf, hns, hstp, hbb]
    · simp [validateUploadFile, hpdf, hns, hstp]
  · intro g1 g2 hbb hstp
    simp [validateUploadFile, hpdf, hns, hstp, hbb]
  · intro hstp hbb
    simp [validateUploadFile, hpdf, hns, hstp, hbb]

/-- C5 witness: `2501 BBVA Account.pdf` is valid and classified as a BBVA
file, and a plain `statement.pdf` is valid and classified auto-detect. -/
theorem c5_pdf_accepted_witness :
    (validateUploadFile ⟨"2501 BBVA Account.pdf", 1024⟩).valid = true
      ∧ (validateUploadFile ⟨"2501 BBVA Account.pdf", 1024⟩).info
          = some "BBVA file: 2501 - bbva account"
      ∧ (validateUploadFile ⟨"statement.pdf", 1024⟩).valid = true
      ∧ (validateUploadFile ⟨"statement.pdf", 1024⟩).info
          = some "PDF file - will auto-detect account" :=
  ⟨(c5_pdf_accepted ⟨"2501 BBVA Account.pdf", 1024⟩ (by decide) (by decide)).1,
   by
    have h := (c5_pdf_accepted ⟨"2501 BBVA Account.pdf", 1024⟩ (by decide) (by decide)).2.1
      "2501" "bbva account" (by decide) (by decide)
    rw [h]; decide,
   (c5_pdf_accepted ⟨"statement.pdf", 1024⟩ (by decide) (by decide)).1,
   (c5_pdf_accepted ⟨"statement.pdf", 1024⟩ (by decide) (by decide)).2.2
     (by decide) (by decide)⟩

/-- C2 counterexample: a 51MB file (size 53477376 over the 52428800 limit) is
marked invalid by `validateUploadFile`, yet when selected together with a valid
file the upload button stays enabled and main.js `startUpload` posts a request
whose FormData includes the oversized file — refuting the claim that an
oversized file is never included in any upload request. -/
theorem c2_oversized_uploaded_counterexample :
    (50 * 1024 * 1024 : Int) < 53477376
      ∧ (validateUploadFile ⟨"2501 BBVA Account.pdf", 53477376⟩).valid = false
      ∧ displaySelectedFilesUploadDisabled
          [⟨"2501 BBVA Account.pdf", 1024⟩, ⟨"2501 BBVA Account.pdf", 53477376⟩] = false
      ∧ startUpload [⟨"2501 BBVA Account.pdf", 1024⟩, ⟨"2501 BBVA Account.pdf", 53477376⟩]
          = some [⟨"2501 BBVA Account.pdf", 1024⟩, ⟨"2501 BBVA Account.pdf", 53477376⟩]
      ∧ (⟨"2501 BBVA Account.pdf", 53477376⟩ : FileMeta)
          ∈ [(⟨"2501 BBVA Account.pdf", 1024⟩ : FileMeta),
             ⟨"2501 BBVA Account.pdf", 53477376⟩] := by
  decide

/-- C2 (amended): every file over 50MB is marked invalid by the local
validator, and when no selected file is valid the upload button is disabled so
no upload is started; but main.js `startUpload` does not filter the files it
posts — only `UploadModal.startUpload` restricts the upload to entries whose
validation status is `valid`. -/
theorem c2_oversized_rejected_amended :
    (∀ f : FileMeta, 50 * 1024 * 1024 < f.size → (validateUploadFile f).valid = false)
      ∧ (∀ files : List FileMeta, countValidFiles files = 0 →
          displaySelectedFilesUploadDisabled files = true)
      ∧ (∀ entries : List ModalFileData, ∀ e ∈ UploadModal.startUploadFiles entries,
          e.validationStatus = .valid) := by
  refine ⟨?_, ?_, ?_⟩
  · intro f h
    unfold validateUploadFile
    split
    · dsimp only
      split <;> rfl
    · rename_i h'
      exact absurd h h'
  · intro files h
    simp [displaySelectedFilesUploadDisabled, h]
  · intro entries e he
    simp only [UploadModal.startUploadFiles, List.mem_filter] at he
    simpa using he.2

/-- C2 amended witness: the amended statement at concrete inputs — a 51MB file
is invalid, a batch with no valid files has the button disabled, and a
valid-status modal entry survives the `UploadModal.startUpload` filter. -/
theorem c2_oversized_rejected_amended_witness :
    ((50 * 1024 * 1024 : Int) < 53477376
        ∧ (validateUploadFile ⟨"2501 BBVA Account.pdf", 53477376⟩).valid = false)
      ∧ (countValidFiles [⟨"notes.docx", 1024⟩] = 0
        ∧ displaySelectedFilesUploadDisabled [⟨"notes.docx", 1024⟩] = true)
      ∧ (⟨"a.pdf", ValidationStatus.valid⟩ : ModalFileData).validationStatus
          = ValidationStatus.valid :=
  ⟨⟨by decide, c2_oversized_rejected_amended.1 _ (by decide)⟩,
   ⟨by decide, c2_oversized_rejected_amended.2.1 _ (by decide)⟩,
   c2_oversized_rejected_amended.2.2 [⟨"a.pdf", ValidationStatus.valid⟩] _ (by decide)⟩

/-- C3: a parse session reaching status `completed` with 0 files processed and
N > 0 files skipped is rendered as a success: `handleParseCompletion` builds a
result with `success = true`, and `showParseResults` renders the
all-files-already-up-to-date message in a success alert. -/
theorem c3_all_current_is_success (progress : ParseProgress) (N : Int)
    (hst : progress.status = "completed")
    (hp : progress.files_processed = some 0 ∨ progress.files_processed = none)
    (hs : progress.files_skipped = some N) (hN : 0 < N) :
    ∃ r, handleParseCompletion progress = some r
      ∧ r.success = true
      ∧ (showParseResults r).isAllCurrent = true
      ∧ (showParseResults r).alertClass = "alert-success"
      ∧ (showParseResults r).messageText
          = "All " ++ toString N ++ " files are already up to date. No parsing needed." := by
  rcases hp with hp | hp <;>
    (unfold handleParseCompletion
     rw [if_pos hst]
     refine ⟨_, rfl, rfl, ?_, ?_, ?_⟩ <;>
       simp [showParseResults, jsOrZero, hs, hp, hN])

/-- C3 witness: a completed session with 0 processed and 7 skipped files
renders the success message for 7 already-current files. -/
theorem c3_all_current_is_success_witness :
    (0 : Int) < 7
      ∧ ∃ r, handleParseCompletion
            { status := "completed", files_processed := some 0, files_skipped := some 7 }
          = some r
        ∧ r.success = true
        ∧ (showParseResults r).isAllCurrent = true
        ∧ (showParseResults r).alertClass = "alert-success"
        ∧ (showParseResults r).messageText
            = "All 7 files are already up to date. No parsing needed." :=
  ⟨by decide,
   c3_all_current_is_success
     { status := "completed", files_processed := some 0, files_skipped := some 7 }
     7 rfl (Or.inl rfl) rfl (by decide)⟩

/-- C7: after a file-selection update, main.js disables the upload button
exactly when zero selected files are valid — so a batch mixing valid and
invalid files can still be submitted — and in the UploadModal variant, at
selection time (all entries still validating) the button is disabled, while
once every validation has settled it is disabled exactly when no entry is
valid. -/
theorem c7_upload_button_disabled_iff :
    (∀ files : List FileMeta,
        (displaySelectedFilesUploadDisabled files = true ↔ countValidFiles files = 0))
      ∧ (∀ files : List FileMeta, 0 < countValidFiles files →
          displaySelectedFilesUploadDisabled files = false)
      ∧ (∀ entries : List ModalFileData,
          (∀ e ∈ entries, e.validationStatus = .validating) →
          UploadModal.updateUploadButtonDisabled entries = true)
      ∧ (∀ entries : List ModalFileData,
          (∀ e ∈ entries, e.validationStatus ≠ .validating) →
          (UploadModal.updateUploadButtonDisabled entries = true
            ↔ ∀ e ∈ entries, e.validationStatus ≠ .valid)) := by
  refine ⟨?_, ?_, ?_, ?_⟩
  · intro files
    simp [displaySelectedFilesUploadDisabled]
  · intro files h
    simp [displaySelectedFilesUploadDisabled]
    omega
  · intro entries h
    have hv : entries.any (fun fd => fd.validationStatus == .valid) = false := by
      rw [List.any_eq_false]
      intro e he
      simp [h e he]
    simp [UploadModal.updateUploadButtonDisabled, hv]
  · intro entries h
    have hval : entries.any (fun fd => fd.validationStatus == .validating) = false := by
      rw [List.any_eq_false]
      intro e he
      simpa using h e he
    simp [UploadModal.updateUploadButtonDisabled, hval]

/-- C7 witness: a batch mixing one valid and one invalid file keeps the button
enabled, and a just-selected (still validating) modal entry keeps it disabled. -/
theorem c7_upload_button_disabled_iff_witness :
    0 < countValidFiles [⟨"2501 BBVA Account.pdf", 1024⟩, ⟨"notes.docx", 1024⟩]
      ∧ displaySelectedFilesUploadDisabled
          [⟨"2501 BBVA Account.pdf", 1024⟩, ⟨"notes.docx", 1024⟩] = false
      ∧ UploadModal.updateUploadButtonDisabled
          [⟨"a.pdf", ValidationStatus.validating⟩] = true :=
  ⟨by decide,
   c7_upload_button_disabled_iff.2.1 _ (by decide),
   c7_upload_button_disabled_iff.2.2.1 [⟨"a.pdf", ValidationStatus.validating⟩]
     (by intro e he; fin_cases he; rfl)⟩

/-- C8: the parse-progress polling interval is cleared exactly when a poll
returns a terminal status (`completed` or `error`) or the request fails; a run
of successful non-terminal polls never stops the poller. -/
theorem c8_poll_cleared_only_on_terminal :
    (∀ p : ParseProgress,
        (pollIntervalActive true (.ok p) = false
          ↔ (p.status = "completed" ∨ p.status = "error")))
      ∧ pollIntervalActive true .fail = false
      ∧ (∀ outcomes : List PollOutcome,
          (∀ r ∈ outcomes, ∃ p, r = .ok p
            ∧ p.status ≠ "completed" ∧ p.status ≠ "error") →
          pollRun outcomes = true) := by
  refine ⟨?_, rfl, ?_⟩
  · intro p
    simp [pollIntervalActive]
    tauto
  · intro outcomes
    induction outcomes with
    | nil => intro _; rfl
    | cons r rs ih =>
      intro h
      obtain ⟨p, hp, h1, h2⟩ := h r (by simp)
      subst hp
      have hstep : pollIntervalActive true (.ok p) = true := by
        simp [pollIntervalActive, h1, h2]
      show List.foldl pollIntervalActive (pollIntervalActive true (.ok p)) rs = true
      rw [hstep]
      exact ih (fun x hx => h x (List.mem_cons_of_mem _ hx))

/-- C8 witness: a poll returning `completed` clears the interval, while two
successful `in_progress` polls leave the poller running. -/
theorem c8_poll_cleared_only_on_terminal_witness :
    pollIntervalActive true (.ok { status := "completed" }) = false
      ∧ pollRun [.ok { status := "in_progress" }, .ok { status := "in_progress" }] = true :=
  ⟨(c8_poll_cleared_only_on_terminal.1 { status := "completed" }).mpr (Or.inl rfl),
   c8_poll_cleared_only_on_terminal.2.2
     [.ok { status := "in_progress" }, .ok { status := "in_progress" }]
     (by
       intro r hr
       fin_cases hr <;> exact ⟨_, rfl, by decide, by decide⟩)⟩

/-- C9: the month-cell render is a deterministic function of the month record:
missing data or `file_count = 0` gives the empty cell; an xlsx-only record
shows exactly the Excel icon; a pdf-only record exactly the PDF icon; a record
with both shows both icons; and clicking a cell with both files opens the
selection modal on an STP account but downloads the PDF on a BBVA account. -/
theorem c9_calendar_cell_render :
    (∀ t, updateMonthCell t none = setEmptyCell)
      ∧ (∀ t md, md.file_count = some 0 → updateMonthCell t (some md) = setEmptyCell)
      ∧ (∀ t md x, md.xlsx = some x → md.pdf = none →
          md.status ≠ some "missing" → md.file_count ≠ some 0 →
          (updateMonthCell t (some md)).iconHtml
            = "<i class=\"fas fa-file-excel text-success\"></i>")
      ∧ (∀ t md p, md.xlsx = none → md.pdf = some p →
          md.status ≠ some "missing" → md.file_count ≠ some 0 →
          (updateMonthCell t (some md)).iconHtml
            = "<i class=\"fas fa-file-pdf text-danger\"></i>")
      ∧ (∀ t md x p, md.xlsx = some x → md.pdf = some p →
          md.status ≠ some "missing" → md.file_count ≠ some 0 →
          (updateMonthCell t (some md)).iconHtml
            = "<i class=\"fas fa-file-excel text-success me-1\"></i><i class=\"fas fa-file-pdf text-danger\"></i>")
      ∧ (∀ md x p, md.xlsx = some x → md.pdf = some p →
          md.status ≠ some "missing" → md.file_count ≠ some 0 →
          downloadMonthFile "stp" (updateMonthCell "stp" (some md))
              = ClickAction.showSelectionModal
            ∧ downloadMonthFile "bbva" (updateMonthCell "bbva" (some md))
              = ClickAction.downloadPdf) := by
  refine ⟨fun t => rfl, ?_, ?_, ?_, ?_, ?_⟩
  · intro t md h
    simp [updateMonthCell, h]
  · intro t md x hx hp hst hfc
    have h1 : (md.status == some "missing") = false := beq_eq_false_iff_ne.mpr hst
    have h2 : (md.file_count == some 0) = false := beq_eq_false_iff_ne.mpr hfc
    simp [updateMonthCell, h1, h2, setFileCell, setFileIcon, hx, hp]
  · intro t md p hx hp hst hfc
    have h1 : (md.status == some "missing") = false := beq_eq_false_iff_ne.mpr hst
    have h2 : (md.file_count == some 0) = false := beq_eq_false_iff_ne.mpr hfc
    simp [updateMonthCell, h1, h2, setFileCell, setFileIcon, hx, hp]
  · intro t md x p hx hp hst hfc
    have h1 : (md.status == some "missing") = false := beq_eq_false_iff_ne.mpr hst
    have h2 : (md.file_count == some 0) = false := beq_eq_false_iff_ne.mpr hfc
    simp [updateMonthCell, h1, h2, setFileCell, setFileIcon, hx, hp]
  · intro md x p hx hp hst hfc
    have h1 : (md.status == some "missing") = false := beq_eq_false_iff_ne.mpr hst
    have h2 : (md.file_count == some 0) = false := beq_eq_false_iff_ne.mpr hfc
    have hicon : ∀ t, (updateMonthCell t (some md)).iconHtml
        = "<i class=\"fas fa-file-excel text-success me-1\"></i><i class=\"fas fa-file-pdf text-danger\"></i>" := by
      intro t
      simp [updateMonthCell, h1, h2, setFileCell, setFileIcon, hx, hp]
    have hclass : ∀ t, (updateMonthCell t (some md)).cellClass = "month-cell" := by
      intro t
      simp [updateMonthCell, h1, h2, setFileCell]
    constructor
    · unfold downloadMonthFile
      rw [hclass "stp", hicon "stp"]
      decide
    · unfold downloadMonthFile
      rw [hclass "bbva", hicon "bbva"]
      decide

/-- C9 witness: the render and click behavior at a concrete month record with
both an xlsx and a pdf file. -/
theorem c9_calendar_cell_render_witness :
    updateMonthCell "stp" none = setEmptyCell
      ∧ (updateMonthCell "stp"
          (some { xlsx := some { transaction_count := some 5 },
                  pdf := some {}, file_count := some 2 })).iconHtml
          = "<i class=\"fas fa-file-excel text-success me-1\"></i><i class=\"fas fa-file-pdf text-danger\"></i>"
      ∧ downloadMonthFile "stp"
          (updateMonthCell "stp"
            (some { xlsx := some { transaction_count := some 5 },
                    pdf := some {}, file_count := some 2 }))
          = ClickAction.showSelectionModal
      ∧ downloadMonthFile "bbva"
          (updateMonthCell "bbva"
            (some { xlsx := some { transaction_count := some 5 },
                    pdf := some {}, file_count := some 2 }))
          = ClickAction.downloadPdf :=
  ⟨c9_calendar_cell_render.1 "stp",
   c9_calendar_cell_render.2.2.2.2.1 "stp" _ _ _ rfl rfl (by decide) (by decide),
   (c9_calendar_cell_render.2.2.2.2.2 _ _ _ rfl rfl (by decide) (by decide)).1,
   (c9_calendar_cell_render.2.2.2.2.2 _ _ _ rfl rfl (by decide) (by decide)).2⟩
